import Mathlib

/-!
Verification development for the marketing-lead-generation pipeline.

The repository consists of a scheduled scraping function
(`netlify/functions/scrape-leads.mjs`), a password-gated lead endpoint plus a
CLI scraper (`netlify/functions/get-leads.mjs`), and a password-gated status
endpoint.  The definitions below are shallow embeddings of those JavaScript
functions: network effects are passed in as explicit outcome values, JS strings
become Lean `String`s (JS `toLowerCase` is modelled on the ASCII range, the
only range the embedded data exercises), JS numbers that carry coordinates
become exact rationals, and JS objects become structures.
-/

namespace LeadGen

/-- ASCII lowercasing of a single character, modelling how JS
`String.prototype.toLowerCase` acts on the ASCII range. -/
def lowerChar (c : Char) : Char :=
  if 65 ≤ c.toNat ∧ c.toNat ≤ 90 then Char.ofNat (c.toNat + 32) else c

/-- Models JS `s.toLowerCase()` on ASCII strings. -/
def lowerStr (s : String) : String := String.mk (s.data.map lowerChar)

/-- `leadsWith needle hay` is true when `needle` occurs at the head of `hay`. -/
def leadsWith : List Char → List Char → Bool
  | [], _ => true
  | _ :: _, [] => false
  | a :: as, b :: bs => a == b && leadsWith as bs

/-- `hasSub hay needle` is true when `needle` occurs contiguously in `hay`. -/
def hasSub : List Char → List Char → Bool
  | [], needle => needle.isEmpty
  | c :: rest, needle => leadsWith needle (c :: rest) || hasSub rest needle

/-- Models JS `s.includes(sub)`. -/
def jsIncludes (s sub : String) : Bool := hasSub s.data sub.data

theorem leadsWith_nil (hay : List Char) : leadsWith [] hay = true := by
  cases hay <;> rfl

theorem hasSub_singleton (cs : List Char) (c : Char) :
    hasSub cs [c] = true ↔ c ∈ cs := by
  induction cs with
  | nil => simp [hasSub, List.isEmpty]
  | cons c' rest ih =>
    simp only [hasSub, leadsWith, leadsWith_nil, Bool.and_true, Bool.or_eq_true,
      List.mem_cons, ih, beq_iff_eq]

theorem jsIncludes_single (s : String) (c : Char) :
    jsIncludes s (String.mk [c]) = true ↔ c ∈ s.data := by
  simpa [jsIncludes] using hasSub_singleton s.data c

/-- One discovered business, as assembled from an Overpass element by
`searchOpenStreetMap` (`scrape-leads.mjs` lines 157-185; the CLI variant in
`get-leads.mjs` lines 527-557 builds the same shape minus the two `scraped*`
fields, which are then simply empty here).  Coordinates may be absent when an
element carries neither direct nor centre coordinates. -/
structure Business where
  name : String
  category : String
  website : String
  phone : String
  email : String
  address : String
  city : String
  state : String
  lat : Option ℚ
  lon : Option ℚ
  osmId : Nat
  source : String
  scrapedAt : String
  scrapedCity : String
deriving DecidableEq, Repr

/-- A qualified lead: the business spread together with its two tracking flags
(`scrape-leads.mjs` lines 269-273). -/
structure Lead extends Business where
  hasGA : Bool
  hasFB : Bool
deriving DecidableEq, Repr

/-- Cross-run identity key of a stored lead
(`scrape-leads.mjs` lines 289 and 291). -/
def leadKey (l : Lead) : String :=
  lowerStr l.name ++ "-" ++ lowerStr l.scrapedCity

/-- Membership of a lead's key in the key set built from the existing store
(`scrape-leads.mjs` line 289: `existingKeys = new Set(allLeads.map(...))`). -/
def keyMem (store : List Lead) (l : Lead) : Bool :=
  decide (leadKey l ∈ store.map leadKey)

/-- The newly qualified leads whose key is not yet in the store
(`scrape-leads.mjs` lines 290-293). -/
def newLeadsOf (store newQualified : List Lead) : List Lead :=
  newQualified.filter (fun l => !(keyMem store l))

/-- Ingest into the accumulation store: append exactly the key-fresh leads
(`scrape-leads.mjs` line 298: `allLeads = [...allLeads, ...newLeads]`). -/
def ingest (store newQualified : List Lead) : List Lead :=
  store ++ newLeadsOf store newQualified

/-- Number of leads in a list carrying a given cross-run key. -/
def countKey (k : String) (store : List Lead) : Nat :=
  store.countP (fun l => leadKey l == k)

/-- The persisted rotation cursor
(`scrape-leads.mjs` lines 245-247: `{ cityIndex, categoryIndex, totalRuns }`). -/
structure RotationState where
  cityIndex : Nat
  categoryIndex : Nat
  totalRuns : Nat
deriving DecidableEq, Repr

/-- One rotation advance, exactly as performed on both the success path
(`scrape-leads.mjs` lines 325-330) and the error path (lines 349-354):
increment the category index, and when it reaches the category-list length
reset it to 0 and increment the city index; the city index is never reduced
modulo the city-list length here.  `C` stands for `CATEGORIES.length`. -/
def advanceRotation (C : Nat) (s : RotationState) : RotationState :=
  let ci := s.categoryIndex + 1
  if C ≤ ci then
    { cityIndex := s.cityIndex + 1, categoryIndex := 0, totalRuns := s.totalRuns + 1 }
  else
    { cityIndex := s.cityIndex, categoryIndex := ci, totalRuns := s.totalRuns + 1 }

/-- `advanceIter C k s` applies the rotation advance `k` times. -/
def advanceIter (C : Nat) : Nat → RotationState → RotationState
  | 0, s => s
  | k + 1, s => advanceRotation C (advanceIter C k s)

/-- The categories rotated through (`scrape-leads.mjs` lines 5-9). -/
def CATEGORIES : List String :=
  ["dentist", "lawyer", "doctor", "accountant", "therapist",
   "chiropractor", "insurance", "real_estate", "financial",
   "clinic", "pharmacy", "veterinary", "optometrist", "psychologist"]

/-- One entry of the scheduled rotation's city list. -/
structure City where
  name : String
  lat : ℚ
  lon : ℚ
deriving DecidableEq, Repr

/-- The cities rotated through (`scrape-leads.mjs` lines 12-65). -/
def CITIES : List City :=
  [{ name := "Los Angeles", lat := 34.0522, lon := -118.2437 },
   { name := "New York", lat := 40.7128, lon := -74.0060 },
   { name := "Chicago", lat := 41.8781, lon := -87.6298 },
   { name := "Houston", lat := 29.7604, lon := -95.3698 },
   { name := "Phoenix", lat := 33.4484, lon := -112.0740 },
   { name := "Philadelphia", lat := 39.9526, lon := -75.1652 },
   { name := "San Antonio", lat := 29.4241, lon := -98.4936 },
   { name := "San Diego", lat := 32.7157, lon := -117.1611 },
   { name := "Dallas", lat := 32.7767, lon := -96.7970 },
   { name := "San Jose", lat := 37.3382, lon := -121.8863 },
   { name := "Austin", lat := 30.2672, lon := -97.7431 },
   { name := "Jacksonville", lat := 30.3322, lon := -81.6557 },
   { name := "San Francisco", lat := 37.7749, lon := -122.4194 },
   { name := "Columbus", lat := 39.9612, lon := -82.9988 },
   { name := "Fort Worth", lat := 32.7555, lon := -97.3308 },
   { name := "Indianapolis", lat := 39.7684, lon := -86.1581 },
   { name := "Charlotte", lat := 35.2271, lon := -80.8431 },
   { name := "Seattle", lat := 47.6062, lon := -122.3321 },
   { name := "Denver", lat := 39.7392, lon := -104.9903 },
   { name := "Washington DC", lat := 38.9072, lon := -77.0369 },
   { name := "Boston", lat := 42.3601, lon := -71.0589 },
   { name := "Nashville", lat := 36.1627, lon := -86.7816 },
   { name := "Detroit", lat := 42.3314, lon := -83.0458 },
   { name := "Portland", lat := 45.5152, lon := -122.6784 },
   { name := "Las Vegas", lat := 36.1699, lon := -115.1398 },
   { name := "Memphis", lat := 35.1495, lon := -90.0490 },
   { name := "Louisville", lat := 38.2527, lon := -85.7585 },
   { name := "Baltimore", lat := 39.2904, lon := -76.6122 },
   { name := "Milwaukee", lat := 43.0389, lon := -87.9065 },
   { name := "Albuquerque", lat := 35.0844, lon := -106.6504 },
   { name := "Tucson", lat := 32.2226, lon := -110.9747 },
   { name := "Fresno", lat := 36.7378, lon := -119.7871 },
   { name := "Sacramento", lat := 38.5816, lon := -121.4944 },
   { name := "Atlanta", lat := 33.7490, lon := -84.3880 },
   { name := "Miami", lat := 25.7617, lon := -80.1918 },
   { name := "Oakland", lat := 37.8044, lon := -122.2712 },
   { name := "Minneapolis", lat := 44.9778, lon := -93.2650 },
   { name := "Cleveland", lat := 41.4993, lon := -81.6944 },
   { name := "Raleigh", lat := 35.7796, lon := -78.6382 },
   { name := "Tampa", lat := 27.9506, lon := -82.4572 },
   { name := "Orlando", lat := 28.5383, lon := -81.3792 },
   { name := "Pittsburgh", lat := 40.4406, lon := -79.9959 },
   { name := "Cincinnati", lat := 39.1031, lon := -84.5120 },
   { name := "St Louis", lat := 38.6270, lon := -90.1994 },
   { name := "Salt Lake City", lat := 40.7608, lon := -111.8910 },
   { name := "Roseville", lat := 38.7521, lon := -121.2880 },
   { name := "Irvine", lat := 33.6846, lon := -117.8265 },
   { name := "Santa Barbara", lat := 34.4208, lon := -119.6982 },
   { name := "Pasadena", lat := 34.1478, lon := -118.1445 },
   { name := "Bakersfield", lat := 35.3733, lon := -119.0187 }]

/-- An HTTP response as observed by the in-repo `fetch` helpers: a status code
and the accumulated body text. -/
structure WebResponse where
  status : Nat
  body : String
deriving DecidableEq, Repr

/-- The tracking-detection result.  The CLI variant returns
`{ hasGA, hasFB, error }` with `error` a string or `null`; the scheduled
variant's object literals carry only the two flags, so reading its absent
`error` property yields `undefined` — both `null` and an absent property are
modelled as `none`. -/
structure TrackingResult where
  hasGA : Bool
  hasFB : Bool
  error : Option String
deriving DecidableEq, Repr

/-- URL normalisation shared by both detector variants: prepend a scheme when
the URL does not start with `http`. -/
def normalizeUrl (url : String) : String :=
  if url.startsWith "http" then url else "https://" ++ url

/-- The fixed analytics pattern set (identical in `get-leads.mjs` lines 589-599
and `scrape-leads.mjs` lines 215-218). -/
def gaPatterns : List String :=
  ["google-analytics.com", "googletagmanager.com", "gtag(",
   "ga(", "_ga", "analytics.js", "gtm.js", "ua-", "g-"]

/-- The fixed pixel pattern set (identical in `get-leads.mjs` lines 602-609
and `scrape-leads.mjs` lines 220-223). -/
def fbPatterns : List String :=
  ["connect.facebook.net", "fbq(", "facebook pixel",
   "fb-pixel", "fbevents.js", "pixel/event"]

/-- The CLI tracking detector (`get-leads.mjs` lines 571-619).  The network is
passed in as `web`, mapping the fetched URL to either a rejection reason (the
thrown error's message) or a response. -/
def checkWebsiteForTrackingCli (url : String)
    (web : String → Except String WebResponse) : TrackingResult :=
  if url = "" then { hasGA := false, hasFB := false, error := some "No URL" }
  else
    match web (normalizeUrl url) with
    | Except.error e => { hasGA := false, hasFB := false, error := some e }
    | Except.ok r =>
      if r.status ≠ 200 then
        { hasGA := false, hasFB := false, error := some ("HTTP " ++ toString r.status) }
      else
        let html := lowerStr r.body
        { hasGA := gaPatterns.any (fun p => jsIncludes html p),
          hasFB := fbPatterns.any (fun p => jsIncludes html p),
          error := none }

/-- The scheduled tracking detector (`scrape-leads.mjs` lines 200-232): same
flag computation, but every returned object carries only the two flags and no
error property. -/
def checkWebsiteForTrackingSched (url : String)
    (web : String → Except String WebResponse) : TrackingResult :=
  if url = "" then { hasGA := false, hasFB := false, error := none }
  else
    match web (normalizeUrl url) with
    | Except.error _ => { hasGA := false, hasFB := false, error := none }
    | Except.ok r =>
      if r.status ≠ 200 then { hasGA := false, hasFB := false, error := none }
      else
        let html := lowerStr r.body
        { hasGA := gaPatterns.any (fun p => jsIncludes html p),
          hasFB := fbPatterns.any (fun p => jsIncludes html p),
          error := none }

/-- The CLI locator's post-processing loop over the parsed element list
(`get-leads.mjs` lines 559-567): one pass that drops nameless records and
keeps the first occurrence of each lowercased name, threading the mutable
`seen` set explicitly. -/
def cliLocatorFilter : List Business → List String → List Business
  | [], _ => []
  | b :: bs, seen =>
    if b.name == "Unknown Business" then cliLocatorFilter bs seen
    else if seen.contains (lowerStr b.name) then cliLocatorFilter bs seen
    else b :: cliLocatorFilter bs (lowerStr b.name :: seen)

/-- Post-processing of the CLI `searchOpenStreetMap`: the filter pass only; the
CLI variant returns the whole filtered list with no truncation. -/
def searchOpenStreetMapCliPost (businesses : List Business) : List Business :=
  cliLocatorFilter businesses []

/-- The scheduled locator's post-processing loop
(`scrape-leads.mjs` lines 188-196): additionally drops records without a
website before the dedup test. -/
def schedLocatorFilter : List Business → List String → List Business
  | [], _ => []
  | b :: bs, seen =>
    if b.name == "Unknown Business" then schedLocatorFilter bs seen
    else if b.website == "" then schedLocatorFilter bs seen
    else if seen.contains (lowerStr b.name) then schedLocatorFilter bs seen
    else b :: schedLocatorFilter bs (lowerStr b.name :: seen)

/-- Post-processing of the scheduled `searchOpenStreetMap`
(`scrape-leads.mjs` lines 188-197): the filter pass followed by
`.slice(0, limit)`. -/
def searchOpenStreetMapSchedPost (limit : Nat) (businesses : List Business) :
    List Business :=
  (schedLocatorFilter businesses []).take limit

/-- Staged first-occurrence-wins dedup by lowercased name, used to express the
post-processing as a pipeline of separate stages. -/
def dedupByLowerName : List Business → List String → List Business
  | [], _ => []
  | b :: bs, seen =>
    if seen.contains (lowerStr b.name) then dedupByLowerName bs seen
    else b :: dedupByLowerName bs (lowerStr b.name :: seen)

/-- Modelled from the claim's words: the post-processing pipeline the claim
ascribes to the Business Locator — drop nameless records, dedup by lowercased
name with the first occurrence winning, then truncate to the limit, with the
website filter left to the caller. -/
def claimedLocatorPost (limit : Nat) (businesses : List Business) :
    List Business :=
  (dedupByLowerName (businesses.filter (fun b => !(b.name == "Unknown Business"))) []).take limit

/-- One entry of the CLI resolver's static city table. -/
structure UsCity where
  lat : ℚ
  lon : ℚ
  name : String
deriving DecidableEq, Repr

/-- Part 1 of the CLI resolver's static city table. -/
def usCitiesPart1 : List (String × UsCity) :=
 [("los angeles", { lat := 34.0522, lon := -118.2437, name := "Los Angeles, CA" }),
  ("new york", { lat := 40.7128, lon := -74.0060, name := "New York, NY" }),
  ("chicago", { lat := 41.8781, lon := -87.6298, name := "Chicago, IL" }),
  ("houston", { lat := 29.7604, lon := -95.3698, name := "Houston, TX" }),
  ("phoenix", { lat := 33.4484, lon := -112.0740, name := "Phoenix, AZ" }),
  ("philadelphia", { lat := 39.9526, lon := -75.1652, name := "Philadelphia, PA" }),
  ("san antonio", { lat := 29.4241, lon := -98.4936, name := "San Antonio, TX" }),
  ("san diego", { lat := 32.7157, lon := -117.1611, name := "San Diego, CA" }),
  ("dallas", { lat := 32.7767, lon := -96.7970, name := "Dallas, TX" }),
  ("san jose", { lat := 37.3382, lon := -121.8863, name := "San Jose, CA" }),
  ("austin", { lat := 30.2672, lon := -97.7431, name := "Austin, TX" }),
  ("jacksonville", { lat := 30.3322, lon := -81.6557, name := "Jacksonville, FL" }),
  ("san francisco", { lat := 37.7749, lon := -122.4194, name := "San Francisco, CA" }),
  ("columbus", { lat := 39.9612, lon := -82.9988, name := "Columbus, OH" }),
  ("fort worth", { lat := 32.7555, lon := -97.3308, name := "Fort Worth, TX" }),
  ("indianapolis", { lat := 39.7684, lon := -86.1581, name := "Indianapolis, IN" }),
  ("charlotte", { lat := 35.2271, lon := -80.8431, name := "Charlotte, NC" }),
  ("seattle", { lat := 47.6062, lon := -122.3321, name := "Seattle, WA" }),
  ("denver", { lat := 39.7392, lon := -104.9903, name := "Denver, CO" }),
  ("washington", { lat := 38.9072, lon := -77.0369, name := "Washington, DC" }),
  ("boston", { lat := 42.3601, lon := -71.0589, name := "Boston, MA" }),
  ("nashville", { lat := 36.1627, lon := -86.7816, name := "Nashville, TN" }),
  ("detroit", { lat := 42.3314, lon := -83.0458, name := "Detroit, MI" }),
  ("portland", { lat := 45.5152, lon := -122.6784, name := "Portland, OR" }),
  ("las vegas", { lat := 36.1699, lon := -115.1398, name := "Las Vegas, NV" })]

/-- Part 2 of the CLI resolver's static city table. -/
def usCitiesPart2 : List (String × UsCity) :=
 [("memphis", { lat := 35.1495, lon := -90.0490, name := "Memphis, TN" }),
  ("louisville", { lat := 38.2527, lon := -85.7585, name := "Louisville, KY" }),
  ("baltimore", { lat := 39.2904, lon := -76.6122, name := "Baltimore, MD" }),
  ("milwaukee", { lat := 43.0389, lon := -87.9065, name := "Milwaukee, WI" }),
  ("albuquerque", { lat := 35.0844, lon := -106.6504, name := "Albuquerque, NM" }),
  ("tucson", { lat := 32.2226, lon := -110.9747, name := "Tucson, AZ" }),
  ("fresno", { lat := 36.7378, lon := -119.7871, name := "Fresno, CA" }),
  ("sacramento", { lat := 38.5816, lon := -121.4944, name := "Sacramento, CA" }),
  ("atlanta", { lat := 33.7490, lon := -84.3880, name := "Atlanta, GA" }),
  ("miami", { lat := 25.7617, lon := -80.1918, name := "Miami, FL" }),
  ("oakland", { lat := 37.8044, lon := -122.2712, name := "Oakland, CA" }),
  ("minneapolis", { lat := 44.9778, lon := -93.2650, name := "Minneapolis, MN" }),
  ("cleveland", { lat := 41.4993, lon := -81.6944, name := "Cleveland, OH" }),
  ("raleigh", { lat := 35.7796, lon := -78.6382, name := "Raleigh, NC" }),
  ("tampa", { lat := 27.9506, lon := -82.4572, name := "Tampa, FL" }),
  ("orlando", { lat := 28.5383, lon := -81.3792, name := "Orlando, FL" }),
  ("pittsburgh", { lat := 40.4406, lon := -79.9959, name := "Pittsburgh, PA" }),
  ("cincinnati", { lat := 39.1031, lon := -84.5120, name := "Cincinnati, OH" }),
  ("st louis", { lat := 38.6270, lon := -90.1994, name := "St. Louis, MO" }),
  ("salt lake city", { lat := 40.7608, lon := -111.8910, name := "Salt Lake City, UT" }),
  ("roseville", { lat := 38.7521, lon := -121.2880, name := "Roseville, CA" }),
  ("folsom", { lat := 38.6780, lon := -121.1761, name := "Folsom, CA" }),
  ("elk grove", { lat := 38.4088, lon := -121.3716, name := "Elk Grove, CA" }),
  ("rocklin", { lat := 38.7907, lon := -121.2358, name := "Rocklin, CA" }),
  ("citrus heights", { lat := 38.7071, lon := -121.2811, name := "Citrus Heights, CA" })]

/-- Part 3 of the CLI resolver's static city table. -/
def usCitiesPart3 : List (String × UsCity) :=
 [("rancho cordova", { lat := 38.5891, lon := -121.3028, name := "Rancho Cordova, CA" }),
  ("davis", { lat := 38.5449, lon := -121.7405, name := "Davis, CA" }),
  ("woodland", { lat := 38.6785, lon := -121.7733, name := "Woodland, CA" }),
  ("vacaville", { lat := 38.3566, lon := -121.9877, name := "Vacaville, CA" }),
  ("fairfield", { lat := 38.2494, lon := -122.0400, name := "Fairfield, CA" }),
  ("vallejo", { lat := 38.1041, lon := -122.2566, name := "Vallejo, CA" }),
  ("napa", { lat := 38.2975, lon := -122.2869, name := "Napa, CA" }),
  ("santa rosa", { lat := 38.4404, lon := -122.7141, name := "Santa Rosa, CA" }),
  ("stockton", { lat := 37.9577, lon := -121.2908, name := "Stockton, CA" }),
  ("modesto", { lat := 37.6391, lon := -120.9969, name := "Modesto, CA" }),
  ("berkeley", { lat := 37.8716, lon := -122.2727, name := "Berkeley, CA" }),
  ("fremont", { lat := 37.5485, lon := -121.9886, name := "Fremont, CA" }),
  ("hayward", { lat := 37.6688, lon := -122.0808, name := "Hayward, CA" }),
  ("sunnyvale", { lat := 37.3688, lon := -122.0363, name := "Sunnyvale, CA" }),
  ("santa clara", { lat := 37.3541, lon := -121.9552, name := "Santa Clara, CA" }),
  ("mountain view", { lat := 37.3861, lon := -122.0839, name := "Mountain View, CA" }),
  ("palo alto", { lat := 37.4419, lon := -122.1430, name := "Palo Alto, CA" }),
  ("redwood city", { lat := 37.4852, lon := -122.2364, name := "Redwood City, CA" }),
  ("san mateo", { lat := 37.5630, lon := -122.3255, name := "San Mateo, CA" }),
  ("daly city", { lat := 37.6879, lon := -122.4702, name := "Daly City, CA" }),
  ("concord", { lat := 37.9780, lon := -122.0311, name := "Concord, CA" }),
  ("walnut creek", { lat := 37.9101, lon := -122.0652, name := "Walnut Creek, CA" }),
  ("richmond", { lat := 37.9358, lon := -122.3478, name := "Richmond, CA" }),
  ("antioch", { lat := 38.0049, lon := -121.8058, name := "Antioch, CA" }),
  ("pleasanton", { lat := 37.6624, lon := -121.8747, name := "Pleasanton, CA" })]

/-- Part 4 of the CLI resolver's static city table. -/
def usCitiesPart4 : List (String × UsCity) :=
 [("livermore", { lat := 37.6819, lon := -121.7680, name := "Livermore, CA" }),
  ("long beach", { lat := 33.7701, lon := -118.1937, name := "Long Beach, CA" }),
  ("anaheim", { lat := 33.8366, lon := -117.9143, name := "Anaheim, CA" }),
  ("santa ana", { lat := 33.7455, lon := -117.8677, name := "Santa Ana, CA" }),
  ("irvine", { lat := 33.6846, lon := -117.8265, name := "Irvine, CA" }),
  ("huntington beach", { lat := 33.6595, lon := -117.9988, name := "Huntington Beach, CA" }),
  ("glendale", { lat := 34.1425, lon := -118.2551, name := "Glendale, CA" }),
  ("pasadena", { lat := 34.1478, lon := -118.1445, name := "Pasadena, CA" }),
  ("torrance", { lat := 33.8358, lon := -118.3406, name := "Torrance, CA" }),
  ("pomona", { lat := 34.0551, lon := -117.7500, name := "Pomona, CA" }),
  ("ontario", { lat := 34.0633, lon := -117.6509, name := "Ontario, CA" }),
  ("rancho cucamonga", { lat := 34.1064, lon := -117.5931, name := "Rancho Cucamonga, CA" }),
  ("riverside", { lat := 33.9533, lon := -117.3962, name := "Riverside, CA" }),
  ("corona", { lat := 33.8753, lon := -117.5664, name := "Corona, CA" }),
  ("moreno valley", { lat := 33.9425, lon := -117.2297, name := "Moreno Valley, CA" }),
  ("fontana", { lat := 34.0922, lon := -117.4350, name := "Fontana, CA" }),
  ("san bernardino", { lat := 34.1083, lon := -117.2898, name := "San Bernardino, CA" }),
  ("santa monica", { lat := 34.0195, lon := -118.4912, name := "Santa Monica, CA" }),
  ("burbank", { lat := 34.1808, lon := -118.3090, name := "Burbank, CA" }),
  ("costa mesa", { lat := 33.6411, lon := -117.9187, name := "Costa Mesa, CA" }),
  ("newport beach", { lat := 33.6189, lon := -117.9289, name := "Newport Beach, CA" }),
  ("fullerton", { lat := 33.8703, lon := -117.9242, name := "Fullerton, CA" }),
  ("orange", { lat := 33.7879, lon := -117.8531, name := "Orange, CA" }),
  ("oceanside", { lat := 33.1959, lon := -117.3795, name := "Oceanside, CA" }),
  ("carlsbad", { lat := 33.1581, lon := -117.3506, name := "Carlsbad, CA" })]

/-- Part 5 of the CLI resolver's static city table. -/
def usCitiesPart5 : List (String × UsCity) :=
 [("escondido", { lat := 33.1192, lon := -117.0864, name := "Escondido, CA" }),
  ("temecula", { lat := 33.4936, lon := -117.1484, name := "Temecula, CA" }),
  ("murrieta", { lat := 33.5539, lon := -117.2139, name := "Murrieta, CA" }),
  ("santa barbara", { lat := 34.4208, lon := -119.6982, name := "Santa Barbara, CA" }),
  ("ventura", { lat := 34.2805, lon := -119.2945, name := "Ventura, CA" }),
  ("oxnard", { lat := 34.1975, lon := -119.1771, name := "Oxnard, CA" }),
  ("thousand oaks", { lat := 34.1706, lon := -118.8376, name := "Thousand Oaks, CA" }),
  ("simi valley", { lat := 34.2694, lon := -118.7815, name := "Simi Valley, CA" }),
  ("bakersfield", { lat := 35.3733, lon := -119.0187, name := "Bakersfield, CA" }),
  ("visalia", { lat := 36.3302, lon := -119.2921, name := "Visalia, CA" }),
  ("san luis obispo", { lat := 35.2828, lon := -120.6596, name := "San Luis Obispo, CA" }),
  ("santa cruz", { lat := 36.9741, lon := -122.0308, name := "Santa Cruz, CA" }),
  ("monterey", { lat := 36.6002, lon := -121.8947, name := "Monterey, CA" }),
  ("salinas", { lat := 36.6777, lon := -121.6555, name := "Salinas, CA" })]

/-- The static city table of the CLI resolver (`get-leads.mjs` lines 263-386),
in source order; `Object.entries` preserves the insertion order of these
string keys.  (Split into parts only to keep elaboration fast.) -/
def US_CITIES : List (String × UsCity) :=
  usCitiesPart1 ++ usCitiesPart2 ++ usCitiesPart3 ++ usCitiesPart4 ++ usCitiesPart5

/-- One run-history entry (`scrape-leads.mjs` lines 310-317). -/
structure HistoryEntry where
  timestamp : String
  city : String
  category : String
  businessesFound : Nat
  leadsFound : Nat
  totalLeads : Nat
deriving DecidableEq, Repr

/-- The three durable slots read at the start of a scheduled run: the lead
store, the rotation slot (`none` when never written, which the handler
replaces by the zero state), and the history log. -/
structure StoreState where
  allLeads : List Lead
  rotation : Option RotationState
  history : List HistoryEntry
deriving DecidableEq, Repr

/-- The rotation state a run starts from
(`scrape-leads.mjs` lines 243-248: stored value or the zero state). -/
def rotationOf (st : StoreState) : RotationState :=
  st.rotation.getD { cityIndex := 0, categoryIndex := 0, totalRuns := 0 }

/-- Current city projection (`scrape-leads.mjs` line 251). -/
def currentCityName (s : RotationState) : String :=
  (CITIES.getD (s.cityIndex % CITIES.length) { name := "", lat := 0, lon := 0 }).name

/-- Current category projection (`scrape-leads.mjs` line 252). -/
def currentCategory (s : RotationState) : String :=
  CATEGORIES.getD (s.categoryIndex % CATEGORIES.length) ""

/-- The qualification loop (`scrape-leads.mjs` lines 262-275): check each
business's website and keep those with at least one flag set, spread together
with the flags.  `track` is the already-run tracking check, website to
result. -/
def qualifyLeads (track : String → TrackingResult) (businesses : List Business) :
    List Lead :=
  businesses.filterMap (fun biz =>
    let t := track biz.website
    if t.hasGA || t.hasFB then
      some { toBusiness := biz, hasGA := t.hasGA, hasFB := t.hasFB }
    else none)

/-- The history entry the success path prepends
(`scrape-leads.mjs` lines 310-317). -/
def runHistoryEntry (now : String) (st : StoreState)
    (track : String → TrackingResult) (businesses : List Business) : HistoryEntry :=
  { timestamp := now,
    city := currentCityName (rotationOf st),
    category := currentCategory (rotationOf st),
    businessesFound := businesses.length,
    leadsFound := (newLeadsOf st.allLeads (qualifyLeads track businesses)).length,
    totalLeads := (ingest st.allLeads (qualifyLeads track businesses)).length }

/-- One invocation of the scheduled handler (`scrape-leads.mjs` lines 235-367)
at the granularity of its durable effects.  `searchOutcome` is the result of
the data work of steps 1-2 (the Overpass search, whose thrown errors the
handler's `catch` receives); the returned Boolean is the `success` field of
the JSON response.  On the success path the handler ingests the qualified
leads, prepends one history entry (keeping at most 100), and advances the
rotation; on the error path it only advances the rotation. -/
def runScheduled (now : String) (searchOutcome : Except String (List Business))
    (track : String → TrackingResult) (st : StoreState) : StoreState × Bool :=
  let state := rotationOf st
  match searchOutcome with
  | Except.ok businesses =>
    let qualified := qualifyLeads track businesses
    let allLeads := ingest st.allLeads qualified
    let history := ((runHistoryEntry now st track businesses) :: st.history).take 100
    ({ allLeads := allLeads,
       rotation := some (advanceRotation CATEGORIES.length state),
       history := history }, true)
  | Except.error _ =>
    ({ allLeads := st.allLeads,
       rotation := some (advanceRotation CATEGORIES.length state),
       history := st.history }, false)

/-- One candidate of the parsed geocoding response.  The service returns its
coordinates as strings which the code feeds through `parseFloat`; since the
resolver performs no arithmetic on them, the parsed values are modelled
directly as rationals. -/
structure NomCandidate where
  lat : ℚ
  lon : ℚ
  display_name : String
deriving DecidableEq, Repr

/-- The resolver's result (`{ lat, lon, displayName }`). -/
structure GeoPoint where
  lat : ℚ
  lon : ℚ
  displayName : String
deriving DecidableEq, Repr

/-- The local-table scan of the resolver (`get-leads.mjs` lines 394-403): the
first table entry whose key the lowercased input contains wins. -/
def findCity (low : String) : List (String × UsCity) → Option UsCity
  | [] => none
  | (key, c) :: rest => if jsIncludes low key then some c else findCity low rest

/-- The city names offered in the resolver's failure messages:
`Object.keys(US_CITIES).slice(0, 10).join(', ')`. -/
def suggestedCities : String :=
  String.intercalate ", " ((US_CITIES.map Prod.fst).take 10)

/-- The location resolver (`get-leads.mjs` lines 389-433).  `nominatim` is the
outcome of the single remote geocoding request the resolver would issue on a
table miss: either a rejection reason or a status code plus the parsed
candidate list.  Thrown errors are modelled as `Except.error` of the thrown
message. -/
def geocodeLocation (location : String)
    (nominatim : Except String (Nat × List NomCandidate)) :
    Except String GeoPoint :=
  match findCity (lowerStr location) US_CITIES with
  | some c => Except.ok { lat := c.lat, lon := c.lon, displayName := c.name }
  | none =>
    match nominatim with
    | Except.error e => Except.error e
    | Except.ok (status, data) =>
      if status == 403 || status == 429 then
        Except.error ("Nominatim rate limited. Try one of these cities: " ++ suggestedCities)
      else if status != 200 then
        Except.error ("Geocoding failed with status " ++ toString status)
      else
        match data with
        | [] => Except.error ("Could not find location: " ++ location ++
                  ". Try one of: " ++ suggestedCities)
        | r :: _ => Except.ok { lat := r.lat, lon := r.lon, displayName := r.display_name }

/-- Doubling of internal double quotes: JS `str.replace(/"/g, '""')`. -/
def doubleQuotes : List Char → List Char
  | [] => []
  | c :: rest =>
    if c = '"' then '"' :: '"' :: doubleQuotes rest else c :: doubleQuotes rest

/-- String form of `doubleQuotes`. -/
def doubleQuotesStr (s : String) : String := String.mk (doubleQuotes s.data)

/-- The CSV field encoder, identical in the lead endpoint
(`get-leads.mjs` lines 36-42) and the CLI `toCSV` (lines 693-699): wrap in
double quotes, doubling internal quotes, exactly when the field contains a
comma, a double quote, or a newline.  The fields fed to it here are always
strings, so the JS `String(field || '')` coercion is the identity on them. -/
def escape (field : String) : String :=
  if jsIncludes field "," || jsIncludes field "\"" || jsIncludes field "\n" then
    "\"" ++ doubleQuotesStr field ++ "\""
  else field

/-- Collapse doubled double quotes, the inverse step a standard CSV reader
applies inside a quoted field. -/
def unquoteChars : List Char → List Char
  | [] => []
  | [c] => [c]
  | c1 :: c2 :: rest =>
    if c1 = '"' ∧ c2 = '"' then '"' :: unquoteChars rest
    else c1 :: unquoteChars (c2 :: rest)

/-- Modelled from the claim's words: how a standard CSV reader decodes one
field — a field wrapped in double quotes has the wrapper removed and every
doubled internal quote collapsed; any other field is read verbatim. -/
def readCsvField (s : String) : String :=
  if 2 ≤ s.data.length ∧ s.data.head? = some '"' ∧ s.data.getLast? = some '"' then
    String.mk (unquoteChars (s.data.drop 1).dropLast)
  else s

/-- Modelled from the claim's words: a standard CSV reader splitting one
record into its fields — commas separate fields at the top level, a double
quote toggles quoted mode (where commas and newlines are literal), and a
doubled quote inside quoted mode is a literal quote. -/
def csvSplit : List Char → Bool → List Char → List (List Char)
  | [], _, cur => [cur]
  | '"' :: '"' :: rest, true, cur => csvSplit rest true (cur ++ ['"'])
  | '"' :: rest, true, cur => csvSplit rest false cur
  | c :: rest, true, cur => csvSplit rest true (cur ++ [c])
  | ',' :: rest, false, cur => cur :: csvSplit rest false []
  | '"' :: rest, false, cur => csvSplit rest true cur
  | c :: rest, false, cur => csvSplit rest false (cur ++ [c])

/-- Decode one CSV record with a standard reader (claim apparatus). -/
def parseCsvRecord (s : String) : List String :=
  (csvSplit s.data false []).map String.mk

/-- The CSV header row of the lead endpoint (`get-leads.mjs` lines 30-34). -/
def csvHeaders : List String :=
  ["Business Name", "Category", "Website", "Phone", "Email",
   "Address", "City", "State", "Has GA?", "Has FB Pixel?",
   "Scraped At", "Source"]

/-- The per-lead CSV row of the lead endpoint (`get-leads.mjs` lines 44-49). -/
def leadCsvRow (l : Lead) : List String :=
  [l.name, l.category, l.website, l.phone, l.email,
   l.address, l.city, l.state,
   if l.hasGA then "YES" else "", if l.hasFB then "YES" else "",
   l.scrapedAt, l.source]

/-- One encoded CSV line: `row.map(escape).join(',')`. -/
def csvLine (row : List String) : String :=
  String.intercalate "," (row.map escape)

/-- The whole CSV document of the lead endpoint (`get-leads.mjs` lines 51-54). -/
def leadsCsv (leads : List Lead) : String :=
  String.intercalate "\n" (csvLine csvHeaders :: leads.map (fun l => csvLine (leadCsvRow l)))

/-- The shared secret of the read-only endpoints. -/
def PASSWORD : String := "ztas.io"

/-- JS `a || b` over nullable strings: the empty string is falsy. -/
def jsOrStr (a b : Option String) : Option String :=
  match a with
  | some s => if s = "" then b else some s
  | none => b

/-- Everything the status endpoint computes for an authorised caller
(`part_001` lines 41-58). -/
structure StatusReport where
  totalLeads : Nat
  citiesScraped : Nat
  withGA : Nat
  withFB : Nat
  withTracking : Nat
  nextCityIndex : Nat
  nextCategoryIndex : Nat
  totalRuns : Nat
  recentLeads : List Lead
  history : List HistoryEntry
deriving DecidableEq, Repr

/-- A response body of the read-only endpoints.  JSON serialisation of
structured data is not modelled; a body is either literal text (the
unauthorized JSON and the CSV document) or the structured value the endpoint
serialises. -/
inductive RespBody where
  | text (s : String)
  | jsonLeads (leads : List Lead)
  | statusJson (r : StatusReport)
deriving DecidableEq, Repr

/-- An HTTP response of the read-only endpoints. -/
structure HttpResp where
  status : Nat
  body : RespBody
deriving DecidableEq, Repr

/-- The 401 body `JSON.stringify({ error: 'Unauthorized' })`. -/
def unauthorizedBody : String := "\x7b\"error\":\"Unauthorized\"\x7d"

/-- The lead endpoint (`get-leads.mjs` lines 5-68).  `passwordParam` and
`formatParam` are the `password` and `format` query parameters,
`xPasswordHeader` the `x-password` header (each `none` when absent), and
`leads` the content of the lead store slot.  The store is only consulted on
the authorised branch, so an unauthorised response is built from the request
alone. -/
def getLeadsHandler (passwordParam xPasswordHeader formatParam : Option String)
    (leads : List Lead) : HttpResp :=
  let pass := jsOrStr passwordParam xPasswordHeader
  if pass ≠ some PASSWORD then
    { status := 401, body := RespBody.text unauthorizedBody }
  else
    let format := (jsOrStr formatParam (some "json")).getD "json"
    if format = "csv" then
      { status := 200, body := RespBody.text (leadsCsv leads) }
    else
      { status := 200, body := RespBody.jsonLeads leads }

/-- The status endpoint (`part_001`): same password gate, then statistics over
the three store slots. -/
def statusHandler (passwordParam xPasswordHeader : Option String)
    (leads : List Lead) (rotation : Option RotationState)
    (history : List HistoryEntry) : HttpResp :=
  let pass := jsOrStr passwordParam xPasswordHeader
  if pass ≠ some PASSWORD then
    { status := 401, body := RespBody.text unauthorizedBody }
  else
    let state := rotation.getD { cityIndex := 0, categoryIndex := 0, totalRuns := 0 }
    { status := 200,
      body := RespBody.statusJson
        { totalLeads := leads.length,
          citiesScraped := ((leads.map (fun l => l.scrapedCity)).eraseDups).length,
          withGA := (leads.filter (fun l => l.hasGA)).length,
          withFB := (leads.filter (fun l => l.hasFB)).length,
          withTracking := (leads.filter (fun l => l.hasGA || l.hasFB)).length,
          nextCityIndex := state.cityIndex,
          nextCategoryIndex := state.categoryIndex,
          totalRuns := state.totalRuns,
          recentLeads := (leads.drop (leads.length - 20)).reverse,
          history := history.take 20 } }

/-- A concrete lead with the given name, scraped city and website, for use in
concrete evaluations. -/
def sampleLead (name scrapedCity website : String) : Lead :=
  { name := name, category := "dentist", website := website, phone := "",
    email := "", address := "", city := scrapedCity, state := "", lat := none,
    lon := none, osmId := 1, source := "OpenStreetMap",
    scrapedAt := "2026-01-05T10:00:00.000Z", scrapedCity := scrapedCity,
    hasGA := true, hasFB := false }

/-- A concrete business with the given name and website, for use in concrete
evaluations. -/
def sampleBiz (name website : String) : Business :=
  { name := name, category := "dentist", website := website, phone := "",
    email := "", address := "", city := "Sacramento", state := "CA",
    lat := none, lon := none, osmId := 2, source := "OpenStreetMap",
    scrapedAt := "", scrapedCity := "" }

theorem keyMem_false_iff_countKey (s : List Lead) (l : Lead) :
    keyMem s l = false ↔ countKey (leadKey l) s = 0 := by
  simp only [keyMem, countKey, List.countP_eq_zero, decide_eq_false_iff_not,
    List.mem_map, beq_iff_eq, not_exists, not_and]

theorem string_append_cancel_left (a b c : String) (h : a ++ b = a ++ c) :
    b = c := by
  apply String.ext
  have h2 := congrArg String.data h
  simp only [String.data_append] at h2
  exact List.append_cancel_left h2

theorem leadKey_congr (l l' : Lead) (hn : l'.name = l.name)
    (hc : l'.scrapedCity = l.scrapedCity) : leadKey l' = leadKey l := by
  simp [leadKey, hn, hc]

theorem leadKey_ne_of_city (l1 l2 : Lead) (hn : l1.name = l2.name)
    (hc : lowerStr l1.scrapedCity ≠ lowerStr l2.scrapedCity) :
    leadKey l1 ≠ leadKey l2 := by
  intro h
  apply hc
  unfold leadKey at h
  rw [hn] at h
  exact string_append_cancel_left _ _ _ h

/-- C1 (amended). Ingest appends and never rewrites: the existing store is an
unchanged prefix of the result; a lead from the new batch is present in the
result exactly when it was already stored or its cross-run key was fresh;
committing the same name+city twice across two runs leaves exactly one lead
with that key; and two leads with the same name whose scraped cities differ
after lowercasing (so their identity keys differ) are both retained. -/
theorem c1_ingest_dedup (s ns : List Lead) (x l l' l1 l2 : Lead)
    (hn' : l'.name = l.name) (hc' : l'.scrapedCity = l.scrapedCity)
    (hfresh : countKey (leadKey l) s = 0)
    (hn12 : l1.name = l2.name)
    (hc12 : lowerStr l1.scrapedCity ≠ lowerStr l2.scrapedCity)
    (hf1 : keyMem s l1 = false) (hf2 : keyMem s l2 = false) :
    ((ingest s ns).take s.length = s)
    ∧ (x ∈ ingest s ns ↔ x ∈ s ∨ (x ∈ ns ∧ keyMem s x = false))
    ∧ countKey (leadKey l) (ingest (ingest s [l]) [l']) = 1
    ∧ (l1 ∈ ingest (ingest s [l1]) [l2] ∧ l2 ∈ ingest (ingest s [l1]) [l2]) := by
  have hkm : keyMem s l = false := (keyMem_false_iff_countKey s l).mpr hfresh
  have hingest1 : ingest s [l] = s ++ [l] := by
    simp [ingest, newLeadsOf, hkm]
  have hkey' : leadKey l' = leadKey l := leadKey_congr l l' hn' hc'
  have hmem' : keyMem (s ++ [l]) l' = true := by
    simp [keyMem, hkey']
  have hingest2 : ingest (s ++ [l]) [l'] = s ++ [l] := by
    simp [ingest, newLeadsOf, hmem']
  have hkey12 : leadKey l1 ≠ leadKey l2 := leadKey_ne_of_city l1 l2 hn12 hc12
  have hingestB1 : ingest s [l1] = s ++ [l1] := by
    simp [ingest, newLeadsOf, hf1]
  have hfB2 : keyMem (s ++ [l1]) l2 = false := by
    simp only [keyMem, decide_eq_false_iff_not, List.map_append, List.mem_append,
      List.map_cons, List.map_nil, List.mem_singleton] at hf2 ⊢
    rintro (h | h)
    · exact hf2 h
    · exact hkey12 h.symm
  have hingestB2 : ingest (s ++ [l1]) [l2] = (s ++ [l1]) ++ [l2] := by
    simp [ingest, newLeadsOf, hfB2]
  refine ⟨?_, ?_, ?_, ?_⟩
  · exact List.take_left s (newLeadsOf s ns)
  · simp [ingest, newLeadsOf, List.mem_filter]
  · rw [hingest1, hingest2]
    have hzero : countKey (leadKey l) s = 0 := hfresh
    simp [countKey, List.countP_append] at hzero ⊢
    simpa [countKey, List.countP_cons] using hzero
  · rw [hingestB1, hingestB2]
    simp

/-- Witness for C1 at concrete leads: a fresh lead is retained, re-committing
the same name+city leaves one copy, and same-name leads for Boston and Dallas
are both kept. -/
theorem c1_ingest_dedup_w :
    ((ingest [] [sampleLead "Smile Co" "Austin" "s.com"]).take
        (List.length ([] : List Lead)) = [])
    ∧ (sampleLead "Smile Co" "Austin" "s.com"
          ∈ ingest [] [sampleLead "Smile Co" "Austin" "s.com"]
        ↔ sampleLead "Smile Co" "Austin" "s.com" ∈ ([] : List Lead)
          ∨ (sampleLead "Smile Co" "Austin" "s.com" ∈ [sampleLead "Smile Co" "Austin" "s.com"]
             ∧ keyMem [] (sampleLead "Smile Co" "Austin" "s.com") = false))
    ∧ countKey (leadKey (sampleLead "Acme Dental" "Boston" "a.com"))
        (ingest (ingest [] [sampleLead "Acme Dental" "Boston" "a.com"])
          [sampleLead "Acme Dental" "Boston" "later.com"]) = 1
    ∧ (sampleLead "Acme Dental" "Boston" "a.com"
          ∈ ingest (ingest [] [sampleLead "Acme Dental" "Boston" "a.com"])
              [sampleLead "Acme Dental" "Dallas" "d.com"]
       ∧ sampleLead "Acme Dental" "Dallas" "d.com"
          ∈ ingest (ingest [] [sampleLead "Acme Dental" "Boston" "a.com"])
              [sampleLead "Acme Dental" "Dallas" "d.com"]) :=
  c1_ingest_dedup [] [sampleLead "Smile Co" "Austin" "s.com"]
    (sampleLead "Smile Co" "Austin" "s.com")
    (sampleLead "Acme Dental" "Boston" "a.com")
    (sampleLead "Acme Dental" "Boston" "later.com")
    (sampleLead "Acme Dental" "Boston" "a.com")
    (sampleLead "Acme Dental" "Dallas" "d.com")
    (by decide) (by decide) (by decide) (by decide) (by decide) (by decide) (by decide)

/-- Counterexample to C1 as stated: two leads with the same name and with
scraped cities that are different strings ("Boston" vs "BOSTON") share one
cross-run identity key, so the second is NOT retained, contradicting the
claim's clause that two leads with the same name but different scrapedCity
are both retained. -/
theorem c1_counterexample :
    (sampleLead "Acme Dental" "Boston" "a.com").name
        = (sampleLead "Acme Dental" "BOSTON" "b.com").name
    ∧ (sampleLead "Acme Dental" "Boston" "a.com").scrapedCity
        ≠ (sampleLead "Acme Dental" "BOSTON" "b.com").scrapedCity
    ∧ sampleLead "Acme Dental" "BOSTON" "b.com"
        ∉ ingest (ingest [] [sampleLead "Acme Dental" "Boston" "a.com"])
            [sampleLead "Acme Dental" "BOSTON" "b.com"] := by
  decide

theorem succ_div_mod_wrap (n C : Nat) (hC : 0 < C) (h : n % C + 1 = C) :
    (n + 1) % C = 0 ∧ (n + 1) / C = n / C + 1 := by
  have hd := Nat.div_add_mod n C
  have h1 : n + 1 = C * (n / C + 1) := by
    rw [Nat.mul_add, Nat.mul_one]
    omega
  constructor
  · rw [h1]
    exact Nat.mul_mod_right C _
  · rw [h1]
    exact Nat.mul_div_cancel_left _ hC

theorem succ_div_mod_no_wrap (n C : Nat) (hC : 0 < C) (h : n % C + 1 < C) :
    (n + 1) % C = n % C + 1 ∧ (n + 1) / C = n / C := by
  have hd := Nat.div_add_mod n C
  have h1 : n + 1 = C * (n / C) + (n % C + 1) := by omega
  constructor
  · rw [h1, Nat.mul_add_mod]
    exact Nat.mod_eq_of_lt h
  · rw [h1, Nat.mul_add_div hC, Nat.div_eq_of_lt h, Nat.add_zero]

/-- Closed form of iterating the rotation advance from a state whose category
index is in range: after `k` advances the category index is the sum modulo
`C`, the city index has absorbed the carries, and `totalRuns` counts the
advances. -/
theorem advanceIter_closed (C : Nat) (hC : 0 < C) (k : Nat) (s : RotationState)
    (h : s.categoryIndex < C) :
    advanceIter C k s
      = { cityIndex := s.cityIndex + (s.categoryIndex + k) / C,
          categoryIndex := (s.categoryIndex + k) % C,
          totalRuns := s.totalRuns + k } := by
  induction k with
  | zero =>
    simp [advanceIter, Nat.div_eq_of_lt h, Nat.mod_eq_of_lt h]
  | succ k ih =>
    have hmod : (s.categoryIndex + k) % C < C := Nat.mod_lt _ hC
    rw [advanceIter, ih, advanceRotation]
    by_cases hw : (s.categoryIndex + k) % C + 1 = C
    · have hsucc := succ_div_mod_wrap (s.categoryIndex + k) C hC hw
      simp only [hw, le_refl, if_pos]
      rw [← Nat.add_assoc s.categoryIndex k 1]
      rw [hsucc.1, hsucc.2]
      simp [Nat.add_assoc]
    · have hlt : (s.categoryIndex + k) % C + 1 < C := by omega
      have hsucc := succ_div_mod_no_wrap (s.categoryIndex + k) C hC hlt
      have hnot : ¬ C ≤ (s.categoryIndex + k) % C + 1 := by omega
      simp only [hnot, if_neg, not_false_iff]
      rw [← Nat.add_assoc s.categoryIndex k 1]
      rw [hsucc.1, hsucc.2]
      simp [Nat.add_assoc]

/-- C2 (amended). From a state with an in-range category index and list
lengths `C, L ≥ 1`: one advance sets the category index to
`(categoryIndex+1) mod C` and keeps it in range; the stored city index is
incremented by one exactly when the category index wrapped but is NOT reduced
modulo `L`; after exactly `C*L` advances the category index is restored, the
stored city index has grown by exactly `L` (so the state is NOT restored),
and the projected city index `cityIndex mod L` — which is what selects the
city — is restored. -/
theorem c2_rotation_amended (C L : Nat) (s : RotationState)
    (hC : 1 ≤ C) (hL : 1 ≤ L) (hci : s.categoryIndex < C) :
    ((advanceRotation C s).categoryIndex = (s.categoryIndex + 1) % C)
    ∧ ((advanceRotation C s).categoryIndex < C)
    ∧ (s.categoryIndex + 1 = C → (advanceRotation C s).cityIndex = s.cityIndex + 1)
    ∧ (s.categoryIndex + 1 < C → (advanceRotation C s).cityIndex = s.cityIndex)
    ∧ (advanceIter C (C * L) s
        = { cityIndex := s.cityIndex + L, categoryIndex := s.categoryIndex,
            totalRuns := s.totalRuns + C * L })
    ∧ ((s.cityIndex + L) % L = s.cityIndex % L) := by
  have hC0 : 0 < C := hC
  refine ⟨?_, ?_, ?_, ?_, ?_, Nat.add_mod_right _ _⟩
  · by_cases hw : s.categoryIndex + 1 = C
    · have : (s.categoryIndex + 1) % C = 0 := by
        rw [hw]
        exact Nat.mod_self C
      simp [advanceRotation, hw, this]
    · have hlt : s.categoryIndex + 1 < C := by omega
      have hnot : ¬ C ≤ s.categoryIndex + 1 := by omega
      simp [advanceRotation, hnot, Nat.mod_eq_of_lt hlt]
  · by_cases hw : C ≤ s.categoryIndex + 1
    · simp [advanceRotation, hw, hC0]
    · have hlt : s.categoryIndex + 1 < C := by omega
      simp [advanceRotation, hw, hlt]
  · intro hw
    simp [advanceRotation, hw.le, hw]
  · intro hlt
    have hnot : ¬ C ≤ s.categoryIndex + 1 := by omega
    simp [advanceRotation, hnot]
  · rw [advanceIter_closed C hC0 (C * L) s hci]
    have h1 : (s.categoryIndex + C * L) % C = s.categoryIndex := by
      rw [Nat.add_mul_mod_self_left]
      exact Nat.mod_eq_of_lt hci
    have h2 : (s.categoryIndex + C * L) / C = L := by
      rw [Nat.add_mul_div_left _ _ hC0, Nat.div_eq_of_lt hci, Nat.zero_add]
    rw [h1, h2]

/-- Witness for C2 at `C = 2`, `L = 3`, state `(city 7, category 1, runs 5)`:
six advances bring the category index back and push the city index to 10. -/
theorem c2_rotation_amended_w :
    ((advanceRotation 2 { cityIndex := 7, categoryIndex := 1, totalRuns := 5 }).categoryIndex
        = (1 + 1) % 2)
    ∧ (advanceIter 2 (2 * 3) { cityIndex := 7, categoryIndex := 1, totalRuns := 5 }
        = { cityIndex := 7 + 3, categoryIndex := 1, totalRuns := 5 + 2 * 3 }) := by
  have h := c2_rotation_amended 2 3 { cityIndex := 7, categoryIndex := 1, totalRuns := 5 }
    (by decide) (by decide) (by decide)
  exact ⟨h.1, h.2.2.2.2.1⟩

/-- Counterexample to C2 as stated, at `C = 2`, `L = 2` and the valid state
`(city 1, category 1)`: one advance pushes the stored city index to 2, outside
`[0, L-1]`, and after `C*L = 4` advances the stored `(categoryIndex,
cityIndex)` pair is `(1, 3)`, not the original `(1, 1)` — the code never
reduces the stored city index modulo the city-list length. -/
theorem c2_counterexample :
    ¬ ((advanceRotation 2 { cityIndex := 1, categoryIndex := 1, totalRuns := 0 }).cityIndex ≤ 2 - 1)
    ∧ (advanceIter 2 (2 * 2) { cityIndex := 1, categoryIndex := 1, totalRuns := 0 }).cityIndex ≠ 1 := by
  decide


/-- C3 (confirmed). Every invocation of the scheduled handler — on the success
path and on the error path alike — replaces the rotation slot with exactly one
advance of the state it started from, and so increments `totalRuns` by exactly
one; hence `totalRuns` never decreases, and every run moves the cursor (the
category index changes, or the city index steps forward on a wrap), so no
(category, city) combination is repeated forever under persistent failure. -/
theorem c3_advance_every_run (now : String)
    (searchOutcome : Except String (List Business))
    (track : String → TrackingResult) (st : StoreState) :
    (runScheduled now searchOutcome track st).1.rotation
        = some (advanceRotation CATEGORIES.length (rotationOf st))
    ∧ (advanceRotation CATEGORIES.length (rotationOf st)).totalRuns
        = (rotationOf st).totalRuns + 1
    ∧ (rotationOf st).totalRuns
        ≤ (advanceRotation CATEGORIES.length (rotationOf st)).totalRuns
    ∧ ((advanceRotation CATEGORIES.length (rotationOf st)).categoryIndex
          ≠ (rotationOf st).categoryIndex
       ∨ (advanceRotation CATEGORIES.length (rotationOf st)).cityIndex
          = (rotationOf st).cityIndex + 1) := by
  refine ⟨?_, ?_, ?_, ?_⟩
  · cases searchOutcome <;> rfl
  · by_cases hw : CATEGORIES.length ≤ (rotationOf st).categoryIndex + 1 <;>
      simp [advanceRotation, hw]
  · by_cases hw : CATEGORIES.length ≤ (rotationOf st).categoryIndex + 1 <;>
      simp [advanceRotation, hw]
  · by_cases hw : CATEGORIES.length ≤ (rotationOf st).categoryIndex + 1
    · right
      simp [advanceRotation, hw]
    · left
      simp [advanceRotation, hw]

/-- C7 (amended). On a successful run exactly one history entry is prepended
and the log is truncated to 100 entries; on a terminally failing run the
rotation still advances but the history log is left exactly as it was — no
history or error entry is recorded for a failed run. -/
theorem c7_history_amended (now : String) (bs : List Business) (e : String)
    (track : String → TrackingResult) (st : StoreState) :
    (runScheduled now (Except.ok bs) track st).1.history
        = runHistoryEntry now st track bs :: st.history.take 99
    ∧ (runScheduled now (Except.error e) track st).1.history = st.history
    ∧ (runScheduled now (Except.error e) track st).1.rotation
        = some (advanceRotation CATEGORIES.length (rotationOf st)) := by
  refine ⟨?_, rfl, rfl⟩
  show (runHistoryEntry now st track bs :: st.history).take 100
      = runHistoryEntry now st track bs :: st.history.take 99
  rw [List.take_succ_cons]

/-- Counterexample to C7 as stated: a run whose business search fails
terminally (modelled by the `Except.error` outcome the handler catches)
advances the rotation but appends NO entry to the history log, so it is not
the case that exactly one new entry is prepended on every run. -/
theorem c7_counterexample :
    (runScheduled "2026-02-03T00:00:00.000Z" (Except.error "Overpass API error: 504")
        (fun _ => { hasGA := false, hasFB := false, error := none })
        { allLeads := [], rotation := none, history := [] }).1.history = []
    ∧ (runScheduled "2026-02-03T00:00:00.000Z" (Except.error "Overpass API error: 504")
        (fun _ => { hasGA := false, hasFB := false, error := none })
        { allLeads := [], rotation := none, history := [] }).1.history.length ≠ 1
    ∧ (runScheduled "2026-02-03T00:00:00.000Z" (Except.error "Overpass API error: 504")
        (fun _ => { hasGA := false, hasFB := false, error := none })
        { allLeads := [], rotation := none, history := [] }).1.rotation
        = some { cityIndex := 0, categoryIndex := 1, totalRuns := 1 } := by
  refine ⟨rfl, by decide, rfl⟩

/-- C4 (amended). Both detector variants are total functions returning the
two Boolean flags with both flags false in every failure case, but only the
CLI variant carries an explanatory error marker: it reports "No URL" for an
empty URL, the rejection reason for a failed fetch, and "HTTP <status>" for a
non-200 status, and its marker is absent exactly on the successful path; the
scheduled variant returns the bare false flags with no marker in all of those
failure cases. -/
theorem c4_detector_amended (url : String)
    (web : String → Except String WebResponse) (e : String) (r : WebResponse) :
    (url = "" → checkWebsiteForTrackingCli url web
        = { hasGA := false, hasFB := false, error := some "No URL" })
    ∧ (url ≠ "" → web (normalizeUrl url) = Except.error e →
        checkWebsiteForTrackingCli url web
          = { hasGA := false, hasFB := false, error := some e })
    ∧ (url ≠ "" → web (normalizeUrl url) = Except.ok r → r.status ≠ 200 →
        checkWebsiteForTrackingCli url web
          = { hasGA := false, hasFB := false,
              error := some ("HTTP " ++ toString r.status) })
    ∧ (url ≠ "" → web (normalizeUrl url) = Except.ok r → r.status = 200 →
        (checkWebsiteForTrackingCli url web).error = none)
    ∧ (url = "" → checkWebsiteForTrackingSched url web
        = { hasGA := false, hasFB := false, error := none })
    ∧ (url ≠ "" → web (normalizeUrl url) = Except.error e →
        checkWebsiteForTrackingSched url web
          = { hasGA := false, hasFB := false, error := none })
    ∧ (url ≠ "" → web (normalizeUrl url) = Except.ok r → r.status ≠ 200 →
        checkWebsiteForTrackingSched url web
          = { hasGA := false, hasFB := false, error := none }) := by
  refine ⟨?_, ?_, ?_, ?_, ?_, ?_, ?_⟩
  · intro h
    simp [checkWebsiteForTrackingCli, h]
  · intro h hw
    simp [checkWebsiteForTrackingCli, h, hw]
  · intro h hw hs
    simp [checkWebsiteForTrackingCli, h, hw, hs]
  · intro h hw hs
    simp [checkWebsiteForTrackingCli, h, hw, hs]
  · intro h
    simp [checkWebsiteForTrackingSched, h]
  · intro h hw
    simp [checkWebsiteForTrackingSched, h, hw]
  · intro h hw hs
    simp [checkWebsiteForTrackingSched, h, hw, hs]

/-- Witness for C4: concrete failure inputs for each failure shape of each
variant. -/
theorem c4_detector_amended_w :
    checkWebsiteForTrackingCli "" (fun _ => Except.error "never called")
        = { hasGA := false, hasFB := false, error := some "No URL" }
    ∧ checkWebsiteForTrackingCli "example.com" (fun _ => Except.error "Request timeout")
        = { hasGA := false, hasFB := false, error := some "Request timeout" }
    ∧ checkWebsiteForTrackingCli "example.com" (fun _ => Except.ok { status := 404, body := "" })
        = { hasGA := false, hasFB := false, error := some ("HTTP " ++ toString (404 : Nat)) }
    ∧ checkWebsiteForTrackingSched "example.com" (fun _ => Except.ok { status := 404, body := "" })
        = { hasGA := false, hasFB := false, error := none } := by
  refine ⟨?_, ?_, ?_, ?_⟩
  · exact (c4_detector_amended "" (fun _ => Except.error "never called") "x"
      { status := 0, body := "" }).1 rfl
  · exact (c4_detector_amended "example.com" (fun _ => Except.error "Request timeout")
      "Request timeout" { status := 0, body := "" }).2.1 (by decide) rfl
  · exact (c4_detector_amended "example.com" (fun _ => Except.ok { status := 404, body := "" })
      "x" { status := 404, body := "" }).2.2.1 (by decide) rfl (by decide)
  · exact (c4_detector_amended "example.com" (fun _ => Except.ok { status := 404, body := "" })
      "x" { status := 404, body := "" }).2.2.2.2.2.2 (by decide) rfl (by decide)

/-- Counterexample to C4 as stated: the scheduled variant at the failure case
"no checkable website" (the empty URL, with the network unreachable as well)
returns both flags false but NO explanatory error marker — the claim's clause
that every failure case carries an explanatory error marker fails for this
variant. -/
theorem c4_counterexample :
    checkWebsiteForTrackingSched "" (fun _ => Except.error "getaddrinfo ENOTFOUND")
        = { hasGA := false, hasFB := false, error := none }
    ∧ ∀ msg : String,
        (checkWebsiteForTrackingSched "" (fun _ => Except.error "getaddrinfo ENOTFOUND")).error
          ≠ some msg := by
  refine ⟨rfl, ?_⟩
  intro msg h
  rw [show (checkWebsiteForTrackingSched ""
      (fun _ => Except.error "getaddrinfo ENOTFOUND")).error = none from rfl] at h
  exact Option.noConfusion h

/-- C5 (confirmed). On a successful (status 200) fetch both variants agree
and either flag is true exactly when some pattern of its fixed set occurs as
a substring of the lowercased body; on any non-success status both variants
return both flags false and the result does not depend on the body. -/
theorem c5_patterns (url : String)
    (web web2 : String → Except String WebResponse) (r r2 : WebResponse) :
    (url ≠ "" → web (normalizeUrl url) = Except.ok r → r.status = 200 →
      ((checkWebsiteForTrackingCli url web).hasGA = true
          ↔ ∃ p ∈ gaPatterns, jsIncludes (lowerStr r.body) p = true)
      ∧ ((checkWebsiteForTrackingCli url web).hasFB = true
          ↔ ∃ p ∈ fbPatterns, jsIncludes (lowerStr r.body) p = true)
      ∧ checkWebsiteForTrackingSched url web = checkWebsiteForTrackingCli url web)
    ∧ (url ≠ "" → web (normalizeUrl url) = Except.ok r →
        web2 (normalizeUrl url) = Except.ok r2 → r.status = r2.status →
        r.status ≠ 200 →
        (checkWebsiteForTrackingCli url web = checkWebsiteForTrackingCli url web2
         ∧ (checkWebsiteForTrackingCli url web).hasGA = false
         ∧ (checkWebsiteForTrackingCli url web).hasFB = false
         ∧ checkWebsiteForTrackingSched url web = checkWebsiteForTrackingSched url web2
         ∧ (checkWebsiteForTrackingSched url web).hasGA = false
         ∧ (checkWebsiteForTrackingSched url web).hasFB = false)) := by
  constructor
  · intro h hw hs
    refine ⟨?_, ?_, ?_⟩
    · simp [checkWebsiteForTrackingCli, h, hw, hs, List.any_eq_true]
    · simp [checkWebsiteForTrackingCli, h, hw, hs, List.any_eq_true]
    · simp [checkWebsiteForTrackingCli, checkWebsiteForTrackingSched, h, hw, hs]
  · intro h hw hw2 hss hs
    have hs2 : r2.status ≠ 200 := by rw [← hss]; exact hs
    refine ⟨?_, ?_, ?_, ?_, ?_, ?_⟩
    · simp [checkWebsiteForTrackingCli, h, hw, hw2, hs, hs2, hss]
    · simp [checkWebsiteForTrackingCli, h, hw, hs]
    · simp [checkWebsiteForTrackingCli, h, hw, hs]
    · simp [checkWebsiteForTrackingSched, h, hw, hw2, hs, hs2]
    · simp [checkWebsiteForTrackingSched, h, hw, hs]
    · simp [checkWebsiteForTrackingSched, h, hw, hs]

/-- A concrete page body carrying the Google tag manager domain. -/
def c5Body : String := "<script src=https://www.GoogleTagManager.com/gtag/js></script>"

/-- Witness for C5: a page whose body carries the Google tag manager domain
sets `hasGA`; a 500 response yields the same false/false result whatever body
accompanies it. -/
theorem c5_patterns_w :
    (checkWebsiteForTrackingCli "site.com"
        (fun _ => Except.ok { status := 200, body := c5Body })).hasGA = true
    ∧ checkWebsiteForTrackingCli "site.com" (fun _ => Except.ok { status := 500, body := "AAA" })
        = checkWebsiteForTrackingCli "site.com" (fun _ => Except.ok { status := 500, body := "BBB" }) := by
  constructor
  · exact ((c5_patterns "site.com"
      (fun _ => Except.ok { status := 200, body := c5Body })
      (fun _ => Except.ok { status := 200, body := "" })
      { status := 200, body := c5Body }
      { status := 200, body := "" }).1 (by decide) rfl rfl).1.mpr
      ⟨"googletagmanager.com", by decide, by decide⟩
  · exact ((c5_patterns "site.com"
      (fun _ => Except.ok { status := 500, body := "AAA" })
      (fun _ => Except.ok { status := 500, body := "BBB" })
      { status := 500, body := "AAA" } { status := 500, body := "BBB" }).2
      (by decide) rfl rfl rfl (by decide)).1

theorem cliLocatorFilter_staged (bs : List Business) (seen : List String) :
    cliLocatorFilter bs seen
      = dedupByLowerName (bs.filter (fun b => !(b.name == "Unknown Business"))) seen := by
  induction bs generalizing seen with
  | nil => rfl
  | cons b bs ih =>
    cases hname : b.name == "Unknown Business" with
    | true => simp [cliLocatorFilter, List.filter_cons, hname, ih]
    | false =>
      cases hseen : seen.contains (lowerStr b.name) with
      | true => simp [cliLocatorFilter, List.filter_cons, hname, hseen, dedupByLowerName, ih]
      | false => simp [cliLocatorFilter, List.filter_cons, hname, hseen, dedupByLowerName, ih]

theorem schedLocatorFilter_staged (bs : List Business) (seen : List String) :
    schedLocatorFilter bs seen
      = dedupByLowerName
          ((bs.filter (fun b => !(b.name == "Unknown Business"))).filter
            (fun b => !(b.website == ""))) seen := by
  induction bs generalizing seen with
  | nil => rfl
  | cons b bs ih =>
    cases hname : b.name == "Unknown Business" with
    | true => simp [schedLocatorFilter, List.filter_cons, hname, ih]
    | false =>
      cases hweb : b.website == "" with
      | true => simp [schedLocatorFilter, List.filter_cons, hname, hweb, ih]
      | false =>
        cases hseen : seen.contains (lowerStr b.name) with
        | true =>
          simp [schedLocatorFilter, List.filter_cons, hname, hweb, hseen, dedupByLowerName, ih]
        | false =>
          simp [schedLocatorFilter, List.filter_cons, hname, hweb, hseen, dedupByLowerName, ih]

theorem dedupByLowerName_nodup (bs : List Business) (seen : List String) :
    ((dedupByLowerName bs seen).map (fun b => lowerStr b.name)).Nodup
    ∧ ∀ k ∈ (dedupByLowerName bs seen).map (fun b => lowerStr b.name), k ∉ seen := by
  induction bs generalizing seen with
  | nil => simp [dedupByLowerName]
  | cons b bs ih =>
    cases hseen : seen.contains (lowerStr b.name) with
    | true =>
      have hmem : lowerStr b.name ∈ seen := by simpa using hseen
      have heq : dedupByLowerName (b :: bs) seen = dedupByLowerName bs seen := by
        simp [dedupByLowerName, hmem]
      rw [heq]
      exact ih seen
    | false =>
      have hmem : lowerStr b.name ∉ seen := by simpa using hseen
      have heq : dedupByLowerName (b :: bs) seen
          = b :: dedupByLowerName bs (lowerStr b.name :: seen) := by
        simp [dedupByLowerName, hmem]
      have ih2 := ih (lowerStr b.name :: seen)
      rw [heq]
      constructor
      · rw [List.map_cons, List.nodup_cons]
        constructor
        · intro hk
          have h2 := ih2.2 _ hk
          simp [List.mem_cons] at h2
        · exact ih2.1
      · intro k hk
        rw [List.map_cons, List.mem_cons] at hk
        rcases hk with rfl | hk
        · exact hmem
        · have h2 := ih2.2 k hk
          simp only [List.mem_cons, not_or] at h2
          exact h2.2

/-- C6 (amended). The CLI locator's post-processing is exactly: drop nameless
records, then dedup by lowercased name with the first occurrence winning —
and nothing else: no truncation (the caller truncates) and no website filter
(the caller filters).  The scheduled locator's post-processing is: drop
nameless records, then drop records without a website (the website filter IS
inside this variant), then the same dedup, then truncation to the limit.  In
both variants the surviving lowercased names are pairwise distinct. -/
theorem c6_locator_post_amended (bs : List Business) (limit : Nat) :
    searchOpenStreetMapCliPost bs
        = dedupByLowerName (bs.filter (fun b => !(b.name == "Unknown Business"))) []
    ∧ searchOpenStreetMapSchedPost limit bs
        = (dedupByLowerName
            ((bs.filter (fun b => !(b.name == "Unknown Business"))).filter
              (fun b => !(b.website == ""))) []).take limit
    ∧ ((searchOpenStreetMapCliPost bs).map (fun b => lowerStr b.name)).Nodup
    ∧ ((schedLocatorFilter bs []).map (fun b => lowerStr b.name)).Nodup := by
  refine ⟨cliLocatorFilter_staged bs [], ?_, ?_, ?_⟩
  · unfold searchOpenStreetMapSchedPost
    rw [schedLocatorFilter_staged]
  · rw [searchOpenStreetMapCliPost, cliLocatorFilter_staged]
    exact (dedupByLowerName_nodup _ []).1
  · rw [schedLocatorFilter_staged]
    exact (dedupByLowerName_nodup _ []).1

/-- Counterexample to C6 as stated: the scheduled locator drops a named
business without a website (so the website filter is applied inside the
locator, not by the caller), and the CLI locator returns more records than
the limit (so no truncation happens inside it) — both contradicting the
claim's description of the post-processing. -/
theorem c6_counterexample :
    searchOpenStreetMapSchedPost 5 [sampleBiz "Nice Dental" ""] = []
    ∧ claimedLocatorPost 5 [sampleBiz "Nice Dental" ""] = [sampleBiz "Nice Dental" ""]
    ∧ (searchOpenStreetMapCliPost
        [sampleBiz "A Dental" "a.com", sampleBiz "B Dental" "b.com"]).length = 2
    ∧ (claimedLocatorPost 1
        [sampleBiz "A Dental" "a.com", sampleBiz "B Dental" "b.com"]).length = 1 := by
  decide

theorem findCity_first (low : String) (t : List (String × UsCity)) (i : Nat)
    (hi : i < t.length)
    (hhit : jsIncludes low (t.get ⟨i, hi⟩).1 = true)
    (hmin : ∀ j (hj : j < i), jsIncludes low (t.get ⟨j, Nat.lt_trans hj hi⟩).1 = false) :
    findCity low t = some (t.get ⟨i, hi⟩).2 := by
  induction t generalizing i with
  | nil => exact absurd hi (Nat.not_lt_zero i)
  | cons hd rest ih =>
    obtain ⟨k, c⟩ := hd
    cases i with
    | zero =>
      simp only [List.get] at hhit
      simp [findCity, hhit]
    | succ i =>
      have h0 : jsIncludes low k = false := hmin 0 (Nat.succ_pos i)
      simp only [findCity, h0, Bool.false_eq_true, if_false]
      exact ih i (Nat.lt_of_succ_lt_succ hi) hhit
        (fun j hj => hmin (j + 1) (Nat.succ_lt_succ hj))

/-- C8 (confirmed). The resolver lowercases the input and, whenever the table
entry at position `i` is the first whose key is contained in that lowercased
input, returns that entry's coordinates with the same result for every remote
outcome (so no remote call can influence it).  Only on a table miss is the
single geocoding request consulted: a 403 or 429 status fails at once with
the message suggesting known city names, an empty candidate list fails with
the unresolvable-location message, and otherwise the first candidate is
returned. -/
theorem c8_geocode (location : String) :
    (∀ (i : Nat) (hi : i < US_CITIES.length),
      jsIncludes (lowerStr location) (US_CITIES.get ⟨i, hi⟩).1 = true →
      (∀ j (hj : j < i),
        jsIncludes (lowerStr location) (US_CITIES.get ⟨j, Nat.lt_trans hj hi⟩).1 = false) →
      ∀ nom nom2,
        geocodeLocation location nom = geocodeLocation location nom2
        ∧ geocodeLocation location nom
            = Except.ok { lat := (US_CITIES.get ⟨i, hi⟩).2.lat,
                          lon := (US_CITIES.get ⟨i, hi⟩).2.lon,
                          displayName := (US_CITIES.get ⟨i, hi⟩).2.name })
    ∧ (findCity (lowerStr location) US_CITIES = none →
        ∀ (status : Nat) (data : List NomCandidate),
          ((status = 403 ∨ status = 429) →
            geocodeLocation location (Except.ok (status, data))
              = Except.error
                  ("Nominatim rate limited. Try one of these cities: " ++ suggestedCities))
          ∧ (status = 200 → data = [] →
              geocodeLocation location (Except.ok (status, data))
                = Except.error ("Could not find location: " ++ location
                    ++ ". Try one of: " ++ suggestedCities))
          ∧ (∀ r rest, status = 200 → data = r :: rest →
              geocodeLocation location (Except.ok (status, data))
                = Except.ok { lat := r.lat, lon := r.lon,
                              displayName := r.display_name })) := by
  constructor
  · intro i hi hhit hmin nom nom2
    have hfind := findCity_first (lowerStr location) US_CITIES i hi hhit hmin
    constructor
    · simp [geocodeLocation, hfind]
    · simp [geocodeLocation, hfind]
  · intro hmiss status data
    refine ⟨?_, ?_, ?_⟩
    · rintro (rfl | rfl) <;> simp [geocodeLocation, hmiss]
    · rintro rfl rfl
      simp [geocodeLocation, hmiss]
    · rintro r rest rfl rfl
      simp [geocodeLocation, hmiss]

/-- Witness for C8: "Los Angeles" resolves from the first table entry with no
remote influence; "Nowhereville, Atlantis" misses the table and fails with
the rate-limit message on status 429 and with the unresolvable-location
message on an empty candidate list. -/
theorem c8_geocode_w :
    geocodeLocation "Los Angeles" (Except.error "network down")
        = Except.ok { lat := (US_CITIES.get ⟨0, by decide⟩).2.lat,
                      lon := (US_CITIES.get ⟨0, by decide⟩).2.lon,
                      displayName := (US_CITIES.get ⟨0, by decide⟩).2.name }
    ∧ geocodeLocation "Los Angeles" (Except.error "network down")
        = geocodeLocation "Los Angeles" (Except.ok (500, []))
    ∧ geocodeLocation "Nowhereville, Atlantis" (Except.ok (429, []))
        = Except.error ("Nominatim rate limited. Try one of these cities: " ++ suggestedCities)
    ∧ geocodeLocation "Nowhereville, Atlantis" (Except.ok (200, []))
        = Except.error ("Could not find location: Nowhereville, Atlantis. Try one of: "
            ++ suggestedCities) := by
  have hhit := (c8_geocode "Los Angeles").1 0 (by decide) (by decide)
    (fun j hj => absurd hj (Nat.not_lt_zero j))
  have hmiss := (c8_geocode "Nowhereville, Atlantis").2 (by decide)
  refine ⟨?_, ?_, ?_, ?_⟩
  · exact (hhit (Except.error "network down") (Except.error "network down")).2
  · exact (hhit (Except.error "network down") (Except.ok (500, []))).1
  · exact (hmiss 429 []).1 (Or.inr rfl)
  · exact (hmiss 200 []).2.1 rfl rfl

theorem doubleQuotes_nil_iff (l : List Char) : doubleQuotes l = [] ↔ l = [] := by
  cases l with
  | nil => simp [doubleQuotes]
  | cons c rest =>
    constructor
    · intro h
      by_cases hc : c = '"'
      · simp [doubleQuotes, hc] at h
      · simp [doubleQuotes, hc] at h
    · intro h
      exact absurd h (List.cons_ne_nil c rest)

theorem unquote_double (l : List Char) : unquoteChars (doubleQuotes l) = l := by
  induction l with
  | nil => rfl
  | cons c rest ih =>
    by_cases hc : c = '"'
    · subst hc
      have h1 : doubleQuotes ('"' :: rest) = '"' :: '"' :: doubleQuotes rest := by
        simp [doubleQuotes]
      rw [h1]
      have h2 : unquoteChars ('"' :: '"' :: doubleQuotes rest)
          = '"' :: unquoteChars (doubleQuotes rest) := by
        simp [unquoteChars]
      rw [h2, ih]
    · have h1 : doubleQuotes (c :: rest) = c :: doubleQuotes rest := by
        simp [doubleQuotes, hc]
      rw [h1]
      cases hrest : doubleQuotes rest with
      | nil =>
        have hre : rest = [] := (doubleQuotes_nil_iff rest).mp hrest
        subst hre
        rfl
      | cons d ds =>
        have h2 : unquoteChars (c :: d :: ds) = c :: unquoteChars (d :: ds) := by
          simp [unquoteChars, hc]
        rw [h2, ← hrest, ih]

theorem string_mk_data (s : String) : String.mk s.data = s := rfl

theorem escape_round_trip (f : String) : readCsvField (escape f) = f := by
  by_cases hspec : (jsIncludes f "," || jsIncludes f "\"" || jsIncludes f "\n") = true
  · have hesc : escape f = "\"" ++ doubleQuotesStr f ++ "\"" := by
      unfold escape
      rw [if_pos hspec]
    have hdata : (escape f).data = '"' :: (doubleQuotes f.data ++ ['"']) := by
      rw [hesc]
      rfl
    have hlast : (escape f).data.getLast? = some '"' := by
      rw [hdata, ← List.cons_append]
      exact List.getLast?_concat _
    have hhead : (escape f).data.head? = some '"' := by
      rw [hdata]
      rfl
    have hlen : 2 ≤ (escape f).data.length := by
      rw [hdata]
      simp
    unfold readCsvField
    rw [if_pos ⟨hlen, hhead, hlast⟩, hdata]
    show String.mk (unquoteChars ((doubleQuotes f.data ++ ['"']).dropLast)) = f
    rw [List.dropLast_concat, unquote_double]
  · have hfalse : (jsIncludes f "," || jsIncludes f "\"" || jsIncludes f "\n") = false :=
      Bool.eq_false_iff.mpr hspec
    have hesc : escape f = f := by
      unfold escape
      rw [if_neg hspec]
    rw [hesc]
    have hor := Bool.or_eq_false_iff.mp hfalse
    have hq : jsIncludes f "\"" = false := (Bool.or_eq_false_iff.mp hor.1).2
    have hnq : ¬ '"' ∈ f.data := by
      intro hmem
      have hx : jsIncludes f "\"" = true := (hasSub_singleton f.data '"').mpr hmem
      rw [hx] at hq
      exact Bool.noConfusion hq
    have hcond : ¬ (2 ≤ f.data.length ∧ f.data.head? = some '"'
        ∧ f.data.getLast? = some '"') := by
      rintro ⟨hlen, hhead, hlast⟩
      apply hnq
      cases hf : f.data with
      | nil =>
        rw [hf] at hhead
        exact Option.noConfusion hhead
      | cons a l =>
        rw [hf] at hhead
        have ha : a = '"' := by simpa using hhead
        subst ha
        exact List.mem_cons_self _ _
    unfold readCsvField
    rw [if_neg hcond]

/-- A concrete lead whose address contains a comma, a double quote and a
newline, for the CSV round-trip scenario. -/
def c9SampleLead : Lead :=
  { name := "Acme \"Dental\"", category := "dentist", website := "acme.com",
    phone := "(916) 555-0100", email := "hi@acme.com",
    address := "12 \"Main\" St,\nSuite 7", city := "Sacramento", state := "CA",
    lat := none, lon := none, osmId := 3, source := "OpenStreetMap",
    scrapedAt := "2026-01-05T10:00:00.000Z", scrapedCity := "Sacramento",
    hasGA := true, hasFB := true }

/-- C9 (confirmed). The encoder leaves a field verbatim exactly when it has no
comma, double quote or newline, and otherwise wraps it in double quotes with
internal quotes doubled; decoding any encoded field with a standard reader
restores it, and decoding the full encoded CSV record of a lead whose address
contains a comma, a quote and a newline restores every field, the address
among them, exactly. -/
theorem c9_csv_round_trip (f : String) :
    ((jsIncludes f "," || jsIncludes f "\"" || jsIncludes f "\n") = false → escape f = f)
    ∧ ((jsIncludes f "," || jsIncludes f "\"" || jsIncludes f "\n") = true →
        escape f = "\"" ++ doubleQuotesStr f ++ "\"")
    ∧ readCsvField (escape f) = f
    ∧ parseCsvRecord (csvLine (leadCsvRow c9SampleLead)) = leadCsvRow c9SampleLead
    ∧ (leadCsvRow c9SampleLead).getD 5 "" = "12 \"Main\" St,\nSuite 7" := by
  refine ⟨?_, ?_, escape_round_trip f, by decide, by decide⟩
  · intro h
    unfold escape
    rw [if_neg]
    rw [h]
    exact Bool.false_ne_true
  · intro h
    unfold escape
    rw [if_pos h]

/-- Witness for C9: a plain field is kept verbatim, a comma-bearing field is
quoted, and the sample address survives an encode-decode round trip. -/
theorem c9_csv_round_trip_w :
    escape "plain field" = "plain field"
    ∧ escape "a,b" = "\"" ++ doubleQuotesStr "a,b" ++ "\""
    ∧ readCsvField (escape "12 \"Main\" St,\nSuite 7") = "12 \"Main\" St,\nSuite 7" :=
  ⟨(c9_csv_round_trip "plain field").1 (by decide),
   (c9_csv_round_trip "a,b").2.1 (by decide),
   (c9_csv_round_trip "12 \"Main\" St,\nSuite 7").2.2.1⟩

theorem jsOrStr_ne_password (pp xp : Option String)
    (hp : pp ≠ some PASSWORD) (hx : xp ≠ some PASSWORD) :
    jsOrStr pp xp ≠ some PASSWORD := by
  cases pp with
  | none => exact hx
  | some s =>
    by_cases hs : s = ""
    · simpa [jsOrStr, hs] using hx
    · simpa [jsOrStr, hs] using hp

/-- C10 (confirmed). When both the `password` query parameter and the
`x-password` header differ from the shared secret, each read-only endpoint
returns the fixed 401 Unauthorized response, and that response is identical
for any two contents of the durable slots — the store is not consulted on the
unauthorised path, so nothing about the stored leads leaks. -/
theorem c10_unauthorized_no_leak (pp xp fp : Option String)
    (leads leads2 : List Lead) (rot rot2 : Option RotationState)
    (hist hist2 : List HistoryEntry)
    (hp : pp ≠ some PASSWORD) (hx : xp ≠ some PASSWORD) :
    getLeadsHandler pp xp fp leads
        = { status := 401, body := RespBody.text unauthorizedBody }
    ∧ getLeadsHandler pp xp fp leads = getLeadsHandler pp xp fp leads2
    ∧ statusHandler pp xp leads rot hist
        = { status := 401, body := RespBody.text unauthorizedBody }
    ∧ statusHandler pp xp leads rot hist = statusHandler pp xp leads2 rot2 hist2 := by
  have h := jsOrStr_ne_password pp xp hp hx
  refine ⟨?_, ?_, ?_, ?_⟩
  · unfold getLeadsHandler
    rw [if_pos h]
  · unfold getLeadsHandler
    rw [if_pos h, if_pos h]
  · unfold statusHandler
    rw [if_pos h]
  · unfold statusHandler
    rw [if_pos h, if_pos h]

/-- Witness for C10: a wrong password parameter and header yield the fixed
401 response on an empty store and on a populated store alike. -/
theorem c10_unauthorized_no_leak_w :
    getLeadsHandler (some "guess") (some "nope") (some "csv") []
        = { status := 401, body := RespBody.text unauthorizedBody }
    ∧ getLeadsHandler (some "guess") (some "nope") (some "csv") []
        = getLeadsHandler (some "guess") (some "nope") (some "csv")
            [sampleLead "Acme Dental" "Boston" "a.com"]
    ∧ statusHandler (some "guess") (some "nope") [] none []
        = { status := 401, body := RespBody.text unauthorizedBody }
    ∧ statusHandler (some "guess") (some "nope") [] none []
        = statusHandler (some "guess") (some "nope")
            [sampleLead "Acme Dental" "Boston" "a.com"]
            (some { cityIndex := 3, categoryIndex := 5, totalRuns := 47 })
            [{ timestamp := "t", city := "Boston", category := "dentist",
               businessesFound := 4, leadsFound := 1, totalLeads := 9 }] :=
  c10_unauthorized_no_leak (some "guess") (some "nope") (some "csv")
    [] [sampleLead "Acme Dental" "Boston" "a.com"]
    none (some { cityIndex := 3, categoryIndex := 5, totalRuns := 47 })
    [] [{ timestamp := "t", city := "Boston", category := "dentist",
          businessesFound := 4, leadsFound := 1, totalLeads := 9 }]
    (by decide) (by decide)

end LeadGen
